import Mathlib

/-!
Shallow embedding of `src/app.py` (batch unicorn-name scraper).

The program reads a CSV into a table with required columns `Name` and
`Month`, and for each row drives an external web form (Playwright) to
obtain a "unicorn name", normalizes it, and appends it to an output
column `UnicornName`, collecting a human-readable progress log.  A
Streamlit UI validates the columns, runs the scraping worker on a
single-worker thread pool with a 900-second timeout, and maintains
session state (`running` flag, `output_df`, `status_msgs`).

The embedding models:
  * a row as its `Name` string plus the outcome of Python `int()` on its
    `Month` cell (`MonthCell.intLike n` when `int(cell)` returns `n`,
    `MonthCell.nonIntLike msg` when `int(cell)` raises an exception whose
    `str` is `msg`), plus pass-through extra columns;
  * the external service (form fill + select + click + wait + inner_text,
    lines 46-53 of app.py) as an oracle `Nat → String → String →
    ServiceResult` taking the row's iteration index, the filled name and
    the selected month label, and returning either the raw scraped text
    or the exception message of whichever awaited step failed (including
    the 10 s visibility timeout);
  * Python string methods `strip` / `replace` (line 54) as executable
    functions over `List Char` with Python's semantics (`replace`
    substitutes every non-overlapping occurrence, scanning left to
    right);
  * the per-row loop (lines 36-63) as `scrapeLoop`, which for each row
    appends one result cell and exactly two log lines — the
    "Processing row i/total: name..." line and then either the
    "→ value" line or the "Row i failed: msg" line — mirroring the
    try/except that isolates row-level failures;
  * `df["UnicornName"] = results` (line 67) as zipping the input rows
    with the results column;
  * the Streamlit column validation (lines 105-108) as `validateColumns` /
    `runUpload`;
  * the thread-pool execution bridge with its 900 s timeout
    (lines 128-147) as `runBatchBridge` over an abstract `WorkerRun`
    describing when (and how) the worker finishes.
-/

/-- Python character whitespace as used by `str.strip()` (ASCII part;
the scraped values contain only ASCII whitespace). -/
def pyIsSpace (c : Char) : Bool :=
  c = ' ' ∨ c = '\t' ∨ c = '\n' ∨ c = '\r' ∨ c = '\x0b' ∨ c = '\x0c'

/-- Python `str.strip()` on a character list: drop leading and trailing
whitespace. -/
def pyStripList (s : List Char) : List Char :=
  ((s.dropWhile pyIsSpace).reverse.dropWhile pyIsSpace).reverse

/-- Python `str.replace(old, new)` scanning, with explicit fuel so the
recursion is structural (each step consumes at least one character, so
fuel `s.length` is enough; see `pyReplaceAux_fuel`). At each position:
if (non-empty) `old` is a prefix, emit `new` and resume after the
match, else keep the character and move one right — i.e. replace every
non-overlapping occurrence, scanning left to right. (The guard for an
empty `old` never fires: the source calls `replace` with the non-empty
patterns `"\n"` and `"  "` alone.) -/
def pyReplaceAux (old new : List Char) : Nat → List Char → List Char
  | _, [] => []
  | 0, s => s
  | fuel + 1, c :: rest =>
      if old.isPrefixOf (c :: rest) ∧ old ≠ [] then
        new ++ pyReplaceAux old new fuel (rest.drop (old.length - 1))
      else
        c :: pyReplaceAux old new fuel rest

/-- Python `str.replace(old, new)` on character lists. -/
def pyReplaceList (old new s : List Char) : List Char :=
  pyReplaceAux old new s.length s

/-- Python `str.strip()` on strings. -/
def pyStrip (s : String) : String :=
  String.mk (pyStripList s.data)

/-- Python `str.replace(old, new)` on strings. -/
def pyReplace (s old new : String) : String :=
  String.mk (pyReplaceList old.data new.data s.data)

/-- app.py line 54: `name.strip().replace("\n", " ").replace("  ", " ")`. -/
def cleanName (raw : String) : String :=
  pyReplace (pyReplace (pyStrip raw) "\n" " ") "  " " "

/-- app.py lines 16-19. -/
def MONTHS : List String :=
  ["January", "February", "March", "April", "May", "June",
   "July", "August", "September", "October", "November", "December"]

/-- The `Month` cell of a row, as seen by `int(row['Month'])` (app.py
line 41): `intLike n` when the conversion returns `n` (this includes
integer-valued strings and floats, which Python truncates), `nonIntLike
msg` when it raises an exception whose message is `msg` (e.g.
`invalid literal for int() with base 10: 'x'`). -/
inductive MonthCell where
  | intLike (n : Int)
  | nonIntLike (msg : String)
deriving DecidableEq, Repr

/-- One input row: the string rendering of its `Name` cell (used both to
fill the form, line 46, and in the progress line, line 39 — the UI has
already checked the column exists, so `row.get('Name', 'N/A')` and
`row['Name']` agree), its `Month` cell, and any extra pass-through
columns. -/
structure Row where
  name : String
  month : MonthCell
  extras : List (String × String)
deriving DecidableEq, Repr

/-- Outcome of one round-trip with the external web form for one row
(app.py lines 46-53): either the raw text read from `#lblUnicornName`,
or the message of the exception raised by whichever awaited step failed
(element not found, the 10 s visibility timeout, ...). Indexed by the
iteration index and by the values the code would fill/select. -/
inductive ServiceResult where
  | ok (raw : String)
  | err (msg : String)
deriving DecidableEq, Repr

/-- The body of the per-row `try` block (app.py lines 41-55), as a
result: `Except.error msg` models an exception with message `msg`
escaping to the `except` handler. Steps in source order: `int()`
conversion, the 1-12 range check raising `ValueError("Month must be
1–12")`, the `MONTHS` lookup, the service round-trip, normalization. -/
def rowOutcome (svc : Nat → String → String → ServiceResult) (i : Nat)
    (row : Row) : Except String String :=
  match row.month with
  | MonthCell.nonIntLike msg => Except.error msg
  | MonthCell.intLike n =>
      -- month_idx = n - 1; the guard mirrors `not 0 <= month_idx <= 11`
      -- (error branch) and month_name = MONTHS[month_idx].
      if 0 ≤ n - 1 ∧ n - 1 ≤ 11 then
        match svc i row.name (MONTHS.getD (n - 1).toNat "") with
        | ServiceResult.ok raw => Except.ok (cleanName raw)
        | ServiceResult.err msg => Except.error msg
      else
        Except.error "Month must be 1–12"

/-- app.py line 39: the first log line of every iteration. -/
def processingLine (total i : Nat) (row : Row) : String :=
  "Processing row " ++ toString (i + 1) ++ "/" ++ toString total ++ ": "
    ++ row.name ++ "..."

/-- The second log line of an iteration: line 57 on success, line 63 on
a caught exception. -/
def rowSecondLine (svc : Nat → String → String → ServiceResult) (i : Nat)
    (row : Row) : String :=
  match rowOutcome svc i row with
  | Except.ok cleaned => "→ " ++ cleaned
  | Except.error msg => "Row " ++ toString (i + 1) ++ " failed: " ++ msg

/-- The result cell appended for an iteration: the cleaned value on
success (line 55), `"Error: <message>"` on a caught exception
(line 62). -/
def rowResultCell (svc : Nat → String → String → ServiceResult) (i : Nat)
    (row : Row) : String :=
  match rowOutcome svc i row with
  | Except.ok cleaned => cleaned
  | Except.error msg => "Error: " ++ msg

/-- app.py lines 36-63: the `for i, row in df.iterrows()` loop (the CSV
is read with the default range index, so `i` is the 0-based position).
Returns the `results` and `status_messages` accumulators. Each
iteration contributes one result cell and exactly two log lines. -/
def scrapeLoop (svc : Nat → String → String → ServiceResult) (total : Nat) :
    Nat → List Row → List String × List String
  | _, [] => ([], [])
  | i, row :: rest =>
      (rowResultCell svc i row :: (scrapeLoop svc total (i + 1) rest).1,
       processingLine total i row :: rowSecondLine svc i row ::
         (scrapeLoop svc total (i + 1) rest).2)

/-- app.py lines 23-68, `scrape_unicorn_names_async` with the browser
session abstracted into the service oracle: runs the per-row loop over
the table and appends the `UnicornName` column (`df["UnicornName"] =
results`, line 67 — modelled by zipping each input row with its result
cell; pandas requires the lengths to agree, which holds since each
iteration appends exactly one cell). Returns the output table and the
status messages. -/
def scrape_unicorn_names_async (svc : Nat → String → String → ServiceResult)
    (rows : List Row) : List (Row × String) × List String :=
  (rows.zip (scrapeLoop svc rows.length 0 rows).1,
   (scrapeLoop svc rows.length 0 rows).2)

/-- app.py line 105: `required = {"Name", "Month"}`. -/
def requiredColumns : List String := ["Name", "Month"]

/-- app.py line 107: `f"CSV must have columns: {', '.join(required)}"`.
Python iterates the set in an unspecified order; the model fixes the
insertion order. Either order names both required columns, which is all
the theorems below rely on. -/
def missingColumnsMessage : String :=
  "CSV must have columns: " ++ String.intercalate ", " requiredColumns

/-- app.py lines 105-108: `required.issubset(input_df.columns)`; on
failure the error is shown and `st.stop()` aborts the script run. -/
def validateColumns (cols : List String) : Option String :=
  if requiredColumns.all (fun c => decide (c ∈ cols)) then none
  else some missingColumnsMessage

/-- The upload flow: if the column check fails, the run stops with the
error message and no row is ever processed; otherwise the batch may run
over the parsed rows. -/
def runUpload (cols : List String)
    (svc : Nat → String → String → ServiceResult) (rows : List Row) :
    Except String (List (Row × String) × List String) :=
  match validateColumns cols with
  | some msg => Except.error msg
  | none => Except.ok (scrape_unicorn_names_async svc rows)

/-- app.py line 134: `future.result(timeout=900)  # 15 min timeout`. -/
def BATCH_TIMEOUT_SECONDS : Nat := 900

/-- Caller-visible Streamlit session state (app.py lines 9-14):
`running`, `output_df`, `status_msgs`. -/
structure SessionState where
  running : Bool
  output_df : Option (List (Row × String))
  status_msgs : List String
deriving DecidableEq, Repr

/-- What the UI reports at the end of one batch attempt: the success
banner (line 138) or an error banner (lines 141, 145). -/
inductive UIReport where
  | success (banner : String)
  | error (msg : String)
deriving DecidableEq, Repr

/-- How the submitted worker behaves, abstracting wall-clock time:
`finishes t out` — the worker thread finishes after `t` seconds,
returning the scraped pair or raising an exception with message `out`;
`never` — the worker never completes. -/
inductive WorkerRun where
  | finishes (seconds : Nat)
       (outcome : Except String (List (Row × String) × List String))
  | never

/-- The worker's result becomes available to `future.result(timeout=900)`
before the deadline expires. -/
def completesWithinDeadline : WorkerRun → Prop
  | WorkerRun.finishes t _ => t ≤ BATCH_TIMEOUT_SECONDS
  | WorkerRun.never => False

/-- app.py lines 121-147: clicking Start resets the session state
(`running := True`, `output_df := None`, `status_msgs := []`, lines
121-123) and then the bridge blocks on `future.result(timeout=900)`:
on completion it stores the output and log and reports success; on
`TimeoutError` it reports "Scraping timed out after 15 minutes."; on any
other exception it reports "Scraping failed: <message>". In the two
error branches `output_df` keeps the `None` written at the start, so no
partial table is surfaced, and `running` is reset to `False` in all
three branches. -/
def runBatchBridge (w : WorkerRun) : SessionState × UIReport :=
  let s0 : SessionState := { running := true, output_df := none, status_msgs := [] }
  match w with
  | WorkerRun.finishes t out =>
      if t ≤ BATCH_TIMEOUT_SECONDS then
        match out with
        | Except.ok (df, msgs) =>
            ({ running := false, output_df := some df, status_msgs := msgs },
             UIReport.success "🎉 Scraping completed!")
        | Except.error msg =>
            ({ s0 with running := false },
             UIReport.error ("Scraping failed: " ++ msg))
      else
        ({ s0 with running := false },
         UIReport.error "Scraping timed out after 15 minutes.")
  | WorkerRun.never =>
      ({ s0 with running := false },
       UIReport.error "Scraping timed out after 15 minutes.")

/-- A service oracle that echoes the selected month label, used to
observe which label the code selects for a given `Month` value. -/
def svcEcho : Nat → String → String → ServiceResult :=
  fun _ _ label => ServiceResult.ok label

/-- A service oracle that always fails with a fixed message, modelling
e.g. the result element never becoming visible. -/
def svcBoom : Nat → String → String → ServiceResult :=
  fun _ _ _ => ServiceResult.err "boom"

/-- Fixture row with a valid month. -/
def goodRow : Row :=
  { name := "Ann", month := MonthCell.intLike 1, extras := [("City", "Oslo")] }

/-- Fixture row with an out-of-range integer month. -/
def badMonthRow : Row :=
  { name := "Bob", month := MonthCell.intLike 13, extras := [] }

/-- Fixture row whose `Month` cell is not integer-like: `int()` raises. -/
def nonIntRow : Row :=
  { name := "Cy",
    month := MonthCell.nonIntLike "invalid literal for int() with base 10: 'March'",
    extras := [] }

/-! ### Helper lemmas -/

/-- Any fuel at least the length of the input evaluates `pyReplaceAux`
the same way, so the `s.length` fuel in `pyReplaceList` is sufficient:
each step consumes at least one character. -/
theorem pyReplaceAux_fuel (old new : List Char) :
    ∀ fuel₁ fuel₂ s, s.length ≤ fuel₁ → s.length ≤ fuel₂ →
      pyReplaceAux old new fuel₁ s = pyReplaceAux old new fuel₂ s := by
  intro fuel₁
  induction fuel₁ with
  | zero =>
      intro fuel₂ s h₁ _
      have hs : s = [] := List.eq_nil_of_length_eq_zero (Nat.le_zero.mp h₁)
      subst hs
      cases fuel₂ <;> rfl
  | succ f ih =>
      intro fuel₂ s h₁ h₂
      cases s with
      | nil => cases fuel₂ <;> rfl
      | cons c rest =>
          cases fuel₂ with
          | zero => simp at h₂
          | succ g =>
              simp only [List.length_cons] at h₁ h₂
              simp only [pyReplaceAux]
              by_cases hp : old.isPrefixOf (c :: rest) ∧ old ≠ []
              · rw [if_pos hp, if_pos hp]
                congr 1
                exact ih g (rest.drop (old.length - 1))
                  (by simp only [List.length_drop]; omega)
                  (by simp only [List.length_drop]; omega)
              · rw [if_neg hp, if_neg hp]
                congr 1
                exact ih g rest (by omega) (by omega)

theorem scrapeLoop_fst_length (svc : Nat → String → String → ServiceResult)
    (total : Nat) : ∀ i (rows : List Row),
    (scrapeLoop svc total i rows).1.length = rows.length := by
  intro i rows
  induction rows generalizing i with
  | nil => rfl
  | cons row rest ih => simp [scrapeLoop, ih]

theorem scrapeLoop_snd_length (svc : Nat → String → String → ServiceResult)
    (total : Nat) : ∀ i (rows : List Row),
    (scrapeLoop svc total i rows).2.length = 2 * rows.length := by
  intro i rows
  induction rows generalizing i with
  | nil => rfl
  | cons row rest ih =>
      simp only [scrapeLoop, List.length_cons, ih, List.length_cons]
      omega

/-- The result cell at position `k` of the loop started at index `i` is
determined by row `k` alone (and the service oracle at index `i + k`). -/
theorem scrapeLoop_fst_get? (svc : Nat → String → String → ServiceResult)
    (total : Nat) (rows : List Row) : ∀ i k,
    (scrapeLoop svc total i rows).1.get? k
      = (rows.get? k).map (fun row => rowResultCell svc (i + k) row) := by
  induction rows with
  | nil => intro i k; simp [scrapeLoop]
  | cons row rest ih =>
      intro i k
      cases k with
      | zero => simp [scrapeLoop]
      | succ k =>
          simp only [scrapeLoop, List.get?_cons_succ]
          rw [ih (i + 1) k]
          have h : i + 1 + k = i + (k + 1) := by omega
          rw [h]

/-- Log line `2 * k` of the loop started at index `i` is the
"Processing" line of row `k`. -/
theorem scrapeLoop_snd_get?_even (svc : Nat → String → String → ServiceResult)
    (total : Nat) (rows : List Row) : ∀ i k,
    (scrapeLoop svc total i rows).2.get? (2 * k)
      = (rows.get? k).map (fun row => processingLine total (i + k) row) := by
  induction rows with
  | nil => intro i k; simp [scrapeLoop]
  | cons row rest ih =>
      intro i k
      cases k with
      | zero => simp [scrapeLoop]
      | succ k =>
          have h2 : 2 * (k + 1) = 2 * k + 1 + 1 := by omega
          rw [h2]
          simp only [scrapeLoop, List.get?_cons_succ]
          rw [ih (i + 1) k]
          have h : i + 1 + k = i + (k + 1) := by omega
          rw [h]

/-- Log line `2 * k + 1` of the loop started at index `i` is the second
line of row `k` (result or failure). -/
theorem scrapeLoop_snd_get?_odd (svc : Nat → String → String → ServiceResult)
    (total : Nat) (rows : List Row) : ∀ i k,
    (scrapeLoop svc total i rows).2.get? (2 * k + 1)
      = (rows.get? k).map (fun row => rowSecondLine svc (i + k) row) := by
  induction rows with
  | nil => intro i k; simp [scrapeLoop]
  | cons row rest ih =>
      intro i k
      cases k with
      | zero => simp [scrapeLoop]
      | succ k =>
          have h2 : 2 * (k + 1) + 1 = 2 * k + 1 + 1 + 1 := by omega
          rw [h2]
          simp only [scrapeLoop, List.get?_cons_succ]
          rw [ih (i + 1) k]
          have h : i + 1 + k = i + (k + 1) := by omega
          rw [h]

/-- The output table keeps exactly the input rows, in order. -/
theorem scrape_map_fst (svc : Nat → String → String → ServiceResult)
    (rows : List Row) :
    (scrape_unicorn_names_async svc rows).1.map Prod.fst = rows :=
  List.map_fst_zip rows _ (le_of_eq (scrapeLoop_fst_length svc rows.length 0 rows).symm)

/-- The `UnicornName` column of the output table is the loop's results
accumulator. -/
theorem scrape_map_snd (svc : Nat → String → String → ServiceResult)
    (rows : List Row) :
    (scrape_unicorn_names_async svc rows).1.map Prod.snd
      = (scrapeLoop svc rows.length 0 rows).1 :=
  List.map_snd_zip rows _ (le_of_eq (scrapeLoop_fst_length svc rows.length 0 rows))

theorem scrape_length (svc : Nat → String → String → ServiceResult)
    (rows : List Row) :
    (scrape_unicorn_names_async svc rows).1.length = rows.length := by
  conv_rhs => rw [← scrape_map_fst svc rows]
  rw [List.length_map]

/-- The `UnicornName` cell of output row `k` is a function of input row
`k` alone (plus the service oracle's reply at index `k`). -/
theorem scrape_results_get? (svc : Nat → String → String → ServiceResult)
    (rows : List Row) (k : Nat) :
    ((scrape_unicorn_names_async svc rows).1.map Prod.snd).get? k
      = (rows.get? k).map (fun row => rowResultCell svc k row) := by
  rw [scrape_map_snd, scrapeLoop_fst_get?]
  simp

theorem scrape_log_length (svc : Nat → String → String → ServiceResult)
    (rows : List Row) :
    (scrape_unicorn_names_async svc rows).2.length = 2 * rows.length :=
  scrapeLoop_snd_length svc rows.length 0 rows

theorem scrape_log_get?_even (svc : Nat → String → String → ServiceResult)
    (rows : List Row) (k : Nat) :
    (scrape_unicorn_names_async svc rows).2.get? (2 * k)
      = (rows.get? k).map (fun row => processingLine rows.length k row) := by
  have h := scrapeLoop_snd_get?_even svc rows.length rows 0 k
  rw [Nat.zero_add] at h
  exact h

theorem scrape_log_get?_odd (svc : Nat → String → String → ServiceResult)
    (rows : List Row) (k : Nat) :
    (scrape_unicorn_names_async svc rows).2.get? (2 * k + 1)
      = (rows.get? k).map (fun row => rowSecondLine svc k row) := by
  have h := scrapeLoop_snd_get?_odd svc rows.length rows 0 k
  rw [Nat.zero_add] at h
  exact h

/-- A successful row outcome is always a normalized (cleaned) scrape. -/
theorem rowOutcome_ok_cleanName (svc : Nat → String → String → ServiceResult)
    (i : Nat) (row : Row) (c : String)
    (h : rowOutcome svc i row = Except.ok c) : ∃ raw, c = cleanName raw := by
  unfold rowOutcome at h
  split at h
  · exact absurd h (by simp)
  · split at h
    · split at h
      · rename_i raw heq
        exact ⟨raw, by injection h with h; exact h.symm⟩
      · exact absurd h (by simp)
    · exact absurd h (by simp)

/-- The timeout banner is distinct from every generic-failure banner. -/
theorem timeout_ne_failure (msg : String) :
    "Scraping timed out after 15 minutes." ≠ "Scraping failed: " ++ msg := by
  intro h
  have hd : "Scraping timed out after 15 minutes.".data
      = "Scraping failed: ".data ++ msg.data := by
    have hc := congrArg String.data h
    rw [String.data_append] at hc
    exact hc
  have h9 : ("Scraping failed: ".data ++ msg.data).get? 9 = some 'f' := by
    rw [List.get?_eq_getElem?, List.getElem?_append_left (by decide)]
    decide
  rw [← hd] at h9
  exact absurd h9 (by decide)

/-! ### Claims -/

/-- C1, counterexample: a row whose `Month` cell is not integer-like
makes `int(row['Month'])` raise, and the generic handler stores the
conversion message, not `"Error: Month must be 1–12"` as claimed. -/
theorem C1_counterexample :
    ((scrape_unicorn_names_async svcEcho [nonIntRow]).1.map Prod.snd).get? 0
        = some "Error: invalid literal for int() with base 10: 'March'" ∧
    some "Error: invalid literal for int() with base 10: 'March'"
        ≠ some ("Error: Month must be 1–12") := by
  exact ⟨by decide, by decide⟩

/-- C1 (amended): for every row whose `Month` is integer-like with a
value outside 1–12, the result cell equals exactly
`"Error: Month must be 1–12"`, and every other row's result cell is
the one determined by that row alone (so the failure does not affect
it). A non-integer-like `Month` also fails row-locally, but with the
conversion error's message instead. -/
theorem C1_month_error_cell (svc : Nat → String → String → ServiceResult)
    (rows : List Row) (k : Nat) (row : Row) (n : Int)
    (hrow : rows.get? k = some row) (hm : row.month = MonthCell.intLike n)
    (hout : n < 1 ∨ 12 < n) :
    ((scrape_unicorn_names_async svc rows).1.map Prod.snd).get? k
        = some "Error: Month must be 1–12" ∧
    ∀ j row', j ≠ k → rows.get? j = some row' →
      ((scrape_unicorn_names_async svc rows).1.map Prod.snd).get? j
          = some (rowResultCell svc j row') := by
  constructor
  · rw [scrape_results_get?, hrow]
    simp only [Option.map_some']
    have hcell : rowResultCell svc k row = "Error: Month must be 1–12" := by
      simp only [rowResultCell, rowOutcome, hm]
      rw [if_neg (by omega)]
      rfl
    rw [hcell]
  · intro j row' hj hrow'
    rw [scrape_results_get?, hrow']
    simp only [Option.map_some']

/-- C1 witness: in a concrete two-row batch whose second row has
`Month = 13`, the second cell is the range error and the first row's
cell is unaffected. -/
theorem C1_month_error_cell_witness :
    ((scrape_unicorn_names_async svcEcho [goodRow, badMonthRow]).1.map Prod.snd).get? 1
        = some "Error: Month must be 1–12" ∧
    ((scrape_unicorn_names_async svcEcho [goodRow, badMonthRow]).1.map Prod.snd).get? 0
        = some (rowResultCell svcEcho 0 goodRow) := by
  have h := C1_month_error_cell svcEcho [goodRow, badMonthRow] 1 badMonthRow 13
    (by decide) (by decide) (by decide)
  exact ⟨h.1, h.2 0 goodRow (by decide) (by decide)⟩

/-- C2: an exception while processing a row is caught: the row's cell
becomes `"Error: <message>"`, the log gets the `"Row <n> failed:
<message>"` line, and the batch still yields one result per input row
(no abort). -/
theorem C2_row_exception_isolated (svc : Nat → String → String → ServiceResult)
    (rows : List Row) (k : Nat) (row : Row) (msg : String)
    (hrow : rows.get? k = some row)
    (herr : rowOutcome svc k row = Except.error msg) :
    ((scrape_unicorn_names_async svc rows).1.map Prod.snd).get? k
        = some ("Error: " ++ msg) ∧
    (scrape_unicorn_names_async svc rows).2.get? (2 * k + 1)
        = some ("Row " ++ toString (k + 1) ++ " failed: " ++ msg) ∧
    (scrape_unicorn_names_async svc rows).1.length = rows.length ∧
    ∀ j, j < rows.length →
      ((scrape_unicorn_names_async svc rows).1.map Prod.snd).get? j ≠ none := by
  refine ⟨?_, ?_, scrape_length svc rows, ?_⟩
  · rw [scrape_results_get?, hrow]
    simp only [Option.map_some']
    unfold rowResultCell
    rw [herr]
  · rw [scrape_log_get?_odd, hrow]
    simp only [Option.map_some']
    unfold rowSecondLine
    rw [herr]
  · intro j hj heq
    rw [scrape_results_get?] at heq
    rw [Option.map_eq_none'] at heq
    rw [List.get?_eq_none] at heq
    omega

/-- C2 witness: with a service that always fails with message "boom",
row 1 of a two-row batch fails with that message, and row 2 still
yields a result. -/
theorem C2_row_exception_isolated_witness :
    ((scrape_unicorn_names_async svcBoom [goodRow, badMonthRow]).1.map Prod.snd).get? 0
        = some ("Error: " ++ "boom") ∧
    (scrape_unicorn_names_async svcBoom [goodRow, badMonthRow]).2.get? 1
        = some ("Row " ++ toString (0 + 1) ++ " failed: " ++ "boom") ∧
    (scrape_unicorn_names_async svcBoom [goodRow, badMonthRow]).1.length = 2 ∧
    ((scrape_unicorn_names_async svcBoom [goodRow, badMonthRow]).1.map Prod.snd).get? 1
        ≠ none := by
  have h := C2_row_exception_isolated svcBoom [goodRow, badMonthRow] 0 goodRow "boom"
    (by decide) rfl
  exact ⟨h.1, h.2.1, h.2.2.1, h.2.2.2 1 (by decide)⟩

/-- C3: the output table has exactly as many rows as the input, in the
same order with every original row (all its columns) preserved, and the
appended `UnicornName` cell of every row is either a normalized scrape
or an `"Error: <message>"` marker. -/
theorem C3_output_table_shape (svc : Nat → String → String → ServiceResult)
    (rows : List Row) :
    (scrape_unicorn_names_async svc rows).1.length = rows.length ∧
    (scrape_unicorn_names_async svc rows).1.map Prod.fst = rows ∧
    ∀ k cell,
      ((scrape_unicorn_names_async svc rows).1.map Prod.snd).get? k = some cell →
      (∃ raw, cell = cleanName raw) ∨ ∃ m, cell = "Error: " ++ m := by
  refine ⟨scrape_length svc rows, scrape_map_fst svc rows, ?_⟩
  intro k cell hcell
  rw [scrape_results_get?] at hcell
  cases hr : rows.get? k with
  | none => rw [hr] at hcell; exact absurd hcell (by simp)
  | some row =>
      rw [hr] at hcell
      simp only [Option.map_some'] at hcell
      have hc : cell = rowResultCell svc k row := (Option.some_inj.mp hcell).symm
      cases ho : rowOutcome svc k row with
      | ok c =>
          obtain ⟨raw, hraw⟩ := rowOutcome_ok_cleanName svc k row c ho
          refine Or.inl ⟨raw, ?_⟩
          rw [hc]
          unfold rowResultCell
          rw [ho]
          exact hraw
      | error m =>
          refine Or.inr ⟨m, ?_⟩
          rw [hc]
          unfold rowResultCell
          rw [ho]

/-- C3 witness: shape facts at a concrete two-row batch, and the cell
disjunction at its first cell. -/
theorem C3_output_table_shape_witness :
    (scrape_unicorn_names_async svcEcho [goodRow, badMonthRow]).1.length = 2 ∧
    (scrape_unicorn_names_async svcEcho [goodRow, badMonthRow]).1.map Prod.fst
        = [goodRow, badMonthRow] ∧
    ((∃ raw, "January" = cleanName raw) ∨ ∃ m, "January" = "Error: " ++ m) := by
  have h := C3_output_table_shape svcEcho [goodRow, badMonthRow]
  exact ⟨h.1, h.2.1, h.2.2 0 "January" (by decide)⟩

/-- C4: when the worker does not complete within the 900 s deadline the
bridge reports the dedicated timeout banner (distinct from every
generic-failure banner), the caller-visible `running` flag is false
afterwards, and no partial output table is surfaced (`output_df` keeps
the `None` written when the batch started). -/
theorem C4_timeout_distinct (w : WorkerRun) (h : ¬ completesWithinDeadline w) :
    BATCH_TIMEOUT_SECONDS = 900 ∧
    (runBatchBridge w).1.running = false ∧
    (runBatchBridge w).1.output_df = none ∧
    (runBatchBridge w).2 = UIReport.error "Scraping timed out after 15 minutes." ∧
    ∀ msg, (runBatchBridge w).2 ≠ UIReport.error ("Scraping failed: " ++ msg) := by
  cases w with
  | never =>
      refine ⟨rfl, rfl, rfl, rfl, ?_⟩
      intro msg heq
      injection heq with heq
      exact timeout_ne_failure msg heq
  | finishes t out =>
      have ht : ¬ t ≤ BATCH_TIMEOUT_SECONDS := h
      have hb : runBatchBridge (WorkerRun.finishes t out)
          = ({ running := false, output_df := none, status_msgs := [] },
             UIReport.error "Scraping timed out after 15 minutes.") := by
        simp only [runBatchBridge, if_neg ht]
      rw [hb]
      refine ⟨rfl, rfl, rfl, rfl, ?_⟩
      intro msg heq
      injection heq with heq
      exact timeout_ne_failure msg heq

/-- C4 witness: a worker that never completes, and the report compared
with one concrete generic failure. -/
theorem C4_timeout_distinct_witness :
    BATCH_TIMEOUT_SECONDS = 900 ∧
    (runBatchBridge WorkerRun.never).1.running = false ∧
    (runBatchBridge WorkerRun.never).1.output_df = none ∧
    (runBatchBridge WorkerRun.never).2
        = UIReport.error "Scraping timed out after 15 minutes." ∧
    (runBatchBridge WorkerRun.never).2
        ≠ UIReport.error ("Scraping failed: " ++ "browser crashed") := by
  have h := C4_timeout_distinct WorkerRun.never (fun hc => hc)
  exact ⟨h.1, h.2.1, h.2.2.1, h.2.2.2.1, h.2.2.2.2 "browser crashed"⟩

/-- C5: normalization is strip, then replace newlines by spaces, then
the double-space collapsing pass; on the raw value `" Sparkle\nDust  "`
it yields `"Sparkle Dust"`. -/
theorem C5_normalization_law :
    (∀ raw, cleanName raw
        = pyReplace (pyReplace (pyStrip raw) "\n" " ") "  " " ") ∧
    cleanName " Sparkle\nDust  " = "Sparkle Dust" :=
  ⟨fun _ => rfl, by decide⟩

/-- C6: the month number is mapped through the fixed 12-name list by
1-based index (`Month=1 ↦ "January"`, `Month=12 ↦ "December"` — observed
through an oracle echoing the selected label), while `Month=0` and
`Month=13` fail the row with `"Month must be 1–12"`. -/
theorem C6_month_mapping :
    MONTHS.length = 12 ∧
    MONTHS.getD 0 "" = "January" ∧ MONTHS.getD 11 "" = "December" ∧
    (∀ i name extras,
      rowOutcome svcEcho i
          { name := name, month := MonthCell.intLike 1, extras := extras }
        = Except.ok "January") ∧
    (∀ i name extras,
      rowOutcome svcEcho i
          { name := name, month := MonthCell.intLike 12, extras := extras }
        = Except.ok "December") ∧
    (∀ svc i name extras,
      rowOutcome svc i
          { name := name, month := MonthCell.intLike 0, extras := extras }
        = Except.error "Month must be 1–12") ∧
    (∀ svc i name extras,
      rowOutcome svc i
          { name := name, month := MonthCell.intLike 13, extras := extras }
        = Except.error "Month must be 1–12") :=
  ⟨rfl, rfl, rfl, fun _ _ _ => rfl, fun _ _ _ => rfl,
   fun _ _ _ _ => rfl, fun _ _ _ _ => rfl⟩

/-- C7: a table lacking a required column stops the run with an error
naming both required columns, before any row is processed (the batch is
never invoked, so zero rows are processed). -/
theorem C7_missing_columns (cols : List String)
    (svc : Nat → String → String → ServiceResult) (rows : List Row)
    (h : ¬ ("Name" ∈ cols ∧ "Month" ∈ cols)) :
    runUpload cols svc rows = Except.error missingColumnsMessage ∧
    missingColumnsMessage
        = "CSV must have columns: " ++ "Name" ++ ", " ++ "Month" ∧
    ∀ out, runUpload cols svc rows ≠ Except.ok out := by
  have hall : (requiredColumns.all fun c => decide (c ∈ cols)) = false := by
    rw [Bool.eq_false_iff]
    intro hall
    rw [List.all_eq_true] at hall
    exact h ⟨of_decide_eq_true (hall "Name" (by decide)),
             of_decide_eq_true (hall "Month" (by decide))⟩
  have hv : validateColumns cols = some missingColumnsMessage := by
    unfold validateColumns
    rw [hall]
    simp
  refine ⟨?_, by decide, ?_⟩
  · unfold runUpload
    rw [hv]
  · intro out heq
    unfold runUpload at heq
    rw [hv] at heq
    exact absurd heq (by simp)

/-- C7 witness: a table with only a `Name` column. -/
theorem C7_missing_columns_witness :
    runUpload ["Name"] svcEcho [goodRow] = Except.error missingColumnsMessage ∧
    missingColumnsMessage
        = "CSV must have columns: " ++ "Name" ++ ", " ++ "Month" ∧
    runUpload ["Name"] svcEcho [goodRow] ≠ Except.ok ([], []) := by
  have h := C7_missing_columns ["Name"] svcEcho [goodRow] (by decide)
  exact ⟨h.1, h.2.1, h.2.2 ([], [])⟩

/-- C8: an empty input table is not an error: the row processor returns
an empty output table (the `UnicornName` column of an empty table) and
an empty progress log. -/
theorem C8_empty_table (svc : Nat → String → String → ServiceResult) :
    scrape_unicorn_names_async svc [] = ([], []) := rfl

/-- C9: every iterated row appends exactly two log lines — first the
"Processing row n/total: name..." line, then either a "→ value" line or
a "Row n failed: message" line — so the log has exactly twice as many
entries as the input has rows. -/
theorem C9_log_two_lines_per_row (svc : Nat → String → String → ServiceResult)
    (rows : List Row) :
    (scrape_unicorn_names_async svc rows).2.length = 2 * rows.length ∧
    ∀ k row, rows.get? k = some row →
      (scrape_unicorn_names_async svc rows).2.get? (2 * k)
          = some (processingLine rows.length k row) ∧
      (scrape_unicorn_names_async svc rows).2.get? (2 * k + 1)
          = some (rowSecondLine svc k row) ∧
      ((∃ v, rowSecondLine svc k row = "→ " ++ v) ∨
        ∃ m, rowSecondLine svc k row
            = "Row " ++ toString (k + 1) ++ " failed: " ++ m) := by
  refine ⟨scrape_log_length svc rows, ?_⟩
  intro k row hrow
  refine ⟨?_, ?_, ?_⟩
  · rw [scrape_log_get?_even, hrow]
    simp only [Option.map_some']
  · rw [scrape_log_get?_odd, hrow]
    simp only [Option.map_some']
  · unfold rowSecondLine
    cases ho : rowOutcome svc k row with
    | ok c => exact Or.inl ⟨c, rfl⟩
    | error m => exact Or.inr ⟨m, rfl⟩

/-- C9 witness: the concrete two-row batch has a 4-line log whose last
two lines belong to the second row. -/
theorem C9_log_two_lines_per_row_witness :
    (scrape_unicorn_names_async svcEcho [goodRow, badMonthRow]).2.length = 4 ∧
    (scrape_unicorn_names_async svcEcho [goodRow, badMonthRow]).2.get? 2
        = some (processingLine 2 1 badMonthRow) ∧
    (scrape_unicorn_names_async svcEcho [goodRow, badMonthRow]).2.get? 3
        = some (rowSecondLine svcEcho 1 badMonthRow) ∧
    ((∃ v, rowSecondLine svcEcho 1 badMonthRow = "→ " ++ v) ∨
      ∃ m, rowSecondLine svcEcho 1 badMonthRow
          = "Row " ++ toString (1 + 1) ++ " failed: " ++ m) := by
  have h := C9_log_two_lines_per_row svcEcho [goodRow, badMonthRow]
  have hk := h.2 1 badMonthRow (by decide)
  exact ⟨h.1, hk.1, hk.2.1, hk.2.2⟩

/-- C10: the double-space pass replaces every non-overlapping
occurrence left to right, not only the first: four consecutive internal
spaces become two (not one), and two separate double spaces are both
collapsed. -/
theorem C10_double_space_every_occurrence :
    cleanName "Lt    Rt" = "Lt  Rt" ∧
    cleanName "Lt    Rt" ≠ "Lt Rt" ∧
    cleanName "A  B  C" = "A B C" ∧
    pyReplace "a  b  c" "  " " " = "a b c" :=
  ⟨by decide, by decide, by decide, by decide⟩
